import Mathlib

/-!
Verification of the BME280 capture decoder (bme_280_data.py).

The script decodes a byte buffer consisting of a sentinel byte 0xFE, a
32-byte calibration block, and a stream of 9-byte sample frames each led
by the sentinel byte 0xFF.  Python integers are unbounded and its right
shift and floor division round toward negative infinity, so the integer
arithmetic is embedded with Int together with Int.fdiv.
-/

/-- Python style arithmetic right shift on unbounded integers:
x >> n rounds toward negative infinity. -/
def pyShr (x : Int) (n : Nat) : Int := Int.fdiv x (2 ^ n)

/-- Python style left shift on unbounded integers: x << n = x * 2 ^ n. -/
def pyShl (x : Int) (n : Nat) : Int := x * 2 ^ n

/-- Errors the script can raise while reading the calibration block.
The constructor malformedInput models the explicit
ValueError of the sentinel check at line 62 of the source;
indexError models the Python IndexError raised by an out-of-range
byte access. -/
inductive PyError
  | malformedInput
  | indexError
deriving DecidableEq, Repr

/-- Calibration coefficients exactly as the script computes them
(source lines 76 to 95). All fields are mathematical integers. -/
structure CalibrationSet where
  dig_T1 : Int
  dig_T2 : Int
  dig_T3 : Int
  dig_P1 : Int
  dig_P2 : Int
  dig_P3 : Int
  dig_P4 : Int
  dig_P5 : Int
  dig_P6 : Int
  dig_P7 : Int
  dig_P8 : Int
  dig_P9 : Int
  dig_H1 : Int
  dig_H2 : Int
  dig_H3 : Int
  dig_H4 : Int
  dig_H5 : Int
  dig_H6 : Int
deriving DecidableEq, Repr

/-- Unsigned 16-bit decode, low byte first (source line 67). -/
def u16 (lsb msb : Nat) : Int := (((msb <<< 8) ||| lsb : Nat) : Int)

/-- Signed 16-bit decode: same bit pattern, twos complement
reinterpretation when the top bit is set (source line 70). -/
def s16 (lsb msb : Nat) : Int :=
  let val : Nat := (msb <<< 8) ||| lsb
  if val &&& 0x8000 ≠ 0 then (val : Int) - 65536 else (val : Int)

/-- Signed 8-bit decode, modelling struct.unpack with format b
(source line 95). -/
def s8 (b : Nat) : Int := if 128 ≤ b then (b : Int) - 256 else (b : Int)

/-- Parsing of the calibration prefix, following the source exactly:
data[0] is read first (IndexError on an empty buffer), compared with
0xFE (ValueError when different), then the 32 calibration bytes are
read at fixed offsets from the slice data[1:33]; since a Python slice
silently truncates, a buffer shorter than 33 bytes makes one of those
fixed-offset reads fail with IndexError (source lines 62 to 95). -/
def parse (data : List Nat) : Except PyError CalibrationSet :=
  match data with
  | [] => .error .indexError
  | b0 :: _ =>
    if b0 ≠ 0xFE then .error .malformedInput
    else
      let calib := (data.drop 1).take 32
      if calib.length < 32 then .error .indexError
      else .ok {
        dig_T1 := u16 (calib.getD 0 0) (calib.getD 1 0)
        dig_T2 := s16 (calib.getD 2 0) (calib.getD 3 0)
        dig_T3 := s16 (calib.getD 4 0) (calib.getD 5 0)
        dig_P1 := u16 (calib.getD 6 0) (calib.getD 7 0)
        dig_P2 := s16 (calib.getD 8 0) (calib.getD 9 0)
        dig_P3 := s16 (calib.getD 10 0) (calib.getD 11 0)
        dig_P4 := s16 (calib.getD 12 0) (calib.getD 13 0)
        dig_P5 := s16 (calib.getD 14 0) (calib.getD 15 0)
        dig_P6 := s16 (calib.getD 16 0) (calib.getD 17 0)
        dig_P7 := s16 (calib.getD 18 0) (calib.getD 19 0)
        dig_P8 := s16 (calib.getD 20 0) (calib.getD 21 0)
        dig_P9 := s16 (calib.getD 22 0) (calib.getD 23 0)
        dig_H1 := (calib.getD 24 0 : Int)
        dig_H2 := s16 (calib.getD 25 0) (calib.getD 26 0)
        dig_H3 := (calib.getD 27 0 : Int)
        dig_H4 := ((((calib.getD 28 0) <<< 4) ||| ((calib.getD 29 0) &&& 0x0F) : Nat) : Int)
        dig_H5 := ((((calib.getD 30 0) <<< 4) ||| ((calib.getD 29 0) >>> 4) : Nat) : Int)
        dig_H6 := s8 (calib.getD 31 0) }

/-- Fine-resolution temperature intermediate t_fine
(source lines 120 to 122). -/
def tFine (c : CalibrationSet) (adc_T : Int) : Int :=
  let var1 := pyShr ((pyShr adc_T 3 - pyShl c.dig_T1 1) * c.dig_T2) 11
  let var2 := pyShr (pyShr ((pyShr adc_T 4 - c.dig_T1) * (pyShr adc_T 4 - c.dig_T1)) 12
    * c.dig_T3) 14
  var1 + var2

/-- Temperature in hundredths of a degree (source line 123). -/
def tCenti (c : CalibrationSet) (adc_T : Int) : Int :=
  pyShr (tFine c adc_T * 5 + 128) 8

/-- Temperature output in degrees Celsius (source line 124), as an exact
rational in place of the final float division. -/
def temperature (c : CalibrationSet) (adc_T : Int) : ℚ :=
  (tCenti c adc_T : ℚ) / 100

/-- Divisor intermediate of the pressure path, the var1 value at the test
of source line 134 (source lines 127, 131, 132). -/
def pVar1 (c : CalibrationSet) (adc_T : Int) : Int :=
  let v := tFine c adc_T - 128000
  let var1 := pyShr (v * v * c.dig_P3) 8 + pyShl (v * c.dig_P2) 12
  pyShr ((pyShl 1 47 + var1) * c.dig_P1) 33

/-- Subtrahend intermediate of the pressure path, the var2 value at source
line 136 (source lines 127 to 130). -/
def pVar2 (c : CalibrationSet) (adc_T : Int) : Int :=
  let v := tFine c adc_T - 128000
  v * v * c.dig_P6 + pyShl (v * c.dig_P5) 17 + pyShl c.dig_P4 35

/-- Pressure output in hPa (source lines 127 to 142), as an exact rational.
When the divisor intermediate is zero the script skips the division and
stores the sentinel value 0. -/
def pressure (c : CalibrationSet) (adc_T adc_P : Int) : ℚ :=
  if pVar1 c adc_T ≠ 0 then
    let p := 1048576 - adc_P
    let p := Int.fdiv ((pyShl p 31 - pVar2 c adc_T) * 3125) (pVar1 c adc_T)
    let v1 := pyShr (c.dig_P9 * pyShr p 13 * pyShr p 13) 25
    let v2 := pyShr (c.dig_P8 * p) 19
    let p2 := pyShr (p + v1 + v2) 8 + pyShl c.dig_P7 4
    (p2 : ℚ) / 25600
  else 0

/-- Saturation clamp of the humidity path, the expression
max(0, min(v, 419430400)) of source line 150. -/
def clamp (v : Int) : Int := max 0 (min v 419430400)

/-- Humidity intermediate after the saturation clamp
(source lines 145 to 150). -/
def humidityV (c : CalibrationSet) (adc_T adc_H : Int) : Int :=
  let v0 := tFine c adc_T - 76800
  let v1 := pyShr (pyShl adc_H 14 - pyShl c.dig_H4 20 - c.dig_H5 * v0 + 16384) 15 *
    pyShr ((pyShr (pyShr (v0 * c.dig_H6) 10 * (pyShr (v0 * c.dig_H3) 11 + 32768)) 10
      + 2097152) * c.dig_H2 + 8192) 14
  let v2 := v1 - pyShr (pyShr (pyShr v1 15 * pyShr v1 15) 7 * c.dig_H1) 4
  clamp v2

/-- Humidity output in percent relative humidity (source line 151), as an
exact rational. -/
def humidity (c : CalibrationSet) (adc_T adc_H : Int) : ℚ :=
  (pyShr (humidityV c adc_T adc_H) 12 : ℚ) / 1024

/-- ADC packing of a 20-bit reading from three payload bytes
(source lines 115 and 116). -/
def adc20 (b1 b2 b3 : Nat) : Nat := (b1 <<< 12) ||| (b2 <<< 4) ||| (b3 >>> 4)

/-- ADC packing of the 16-bit humidity reading from two payload bytes
(source line 117). -/
def adc16 (b7 b8 : Nat) : Nat := (b7 <<< 8) ||| b8

/-- Frame scanner: at each cursor position with at least 9 bytes left,
a byte different from the sentinel 0xFF advances the cursor by one;
a sentinel byte yields the ADC triplet of the following 8 payload bytes
and advances the cursor by 9; with fewer than 9 bytes left the scan
stops (source lines 109 to 117 and 157). -/
def scan : List Nat → List (Nat × Nat × Nat)
  | b0 :: b1 :: b2 :: b3 :: b4 :: b5 :: b6 :: b7 :: b8 :: rest =>
    if b0 = 0xFF then
      (adc20 b1 b2 b3, adc20 b4 b5 b6, adc16 b7 b8) :: scan rest
    else
      scan (b1 :: b2 :: b3 :: b4 :: b5 :: b6 :: b7 :: b8 :: rest)
  | _ => []
termination_by l => l.length

/-- Driving loop fused with the scanner, exactly as the script interleaves
frame extraction, compensation and the three appends: it returns the
temperatures, pressures and humidities lists in insertion order
(source lines 105 to 157). -/
def scanLoop (c : CalibrationSet) : List Nat → List ℚ × List ℚ × List ℚ
  | b0 :: b1 :: b2 :: b3 :: b4 :: b5 :: b6 :: b7 :: b8 :: rest =>
    if b0 = 0xFF then
      let aT : Int := adc20 b1 b2 b3
      let aP : Int := adc20 b4 b5 b6
      let aH : Int := adc16 b7 b8
      let r := scanLoop c rest
      (temperature c aT :: r.1, pressure c aT aP :: r.2.1, humidity c aT aH :: r.2.2)
    else
      scanLoop c (b1 :: b2 :: b3 :: b4 :: b5 :: b6 :: b7 :: b8 :: rest)
  | _ => ([], [], [])
termination_by l => l.length

/-! ### Arithmetic helper lemmas -/

/-- Flooring division is invariant under negating both operands. -/
theorem fdiv_neg_neg (a b : Int) : Int.fdiv (-a) (-b) = Int.fdiv a b := by
  rcases eq_or_ne b 0 with rfl | hb
  · rw [neg_zero, Int.fdiv_zero, Int.fdiv_zero]
  · rcases a with (_ | m) | m <;> rcases b with (_ | n) | n <;>
      first | rfl | exact absurd rfl hb

/-- Flooring integer division computes the floor of the exact rational
quotient, for any sign of dividend and divisor. -/
theorem fdiv_eq_floor (a : Int) {b : Int} (hb : b ≠ 0) :
    Int.fdiv a b = ⌊(a : ℚ) / (b : ℚ)⌋ := by
  have key : ∀ (x : Int) {y : Int}, 0 < y → Int.fdiv x y = ⌊(x : ℚ) / (y : ℚ)⌋ := by
    intro x y hy
    have h3 : ((y.toNat : ℕ) : ℤ) = y := Int.toNat_of_nonneg hy.le
    rw [Int.fdiv_eq_ediv _ hy.le, ← h3, ← Rat.floor_intCast_div_natCast x y.toNat]
    congr 1
  rcases lt_or_gt_of_ne hb with hneg | hpos
  · have h1 : Int.fdiv a b = Int.fdiv (-a) (-b) := (fdiv_neg_neg a b).symm
    have h2 : (0 : ℤ) < -b := by omega
    rw [h1, key (-a) h2]
    congr 1
    push_cast
    rw [neg_div_neg_eq]
  · exact key a hpos

/-- Python right shift agrees with the floor of division by a power of two,
which is the sign-preserving arithmetic shift semantics. -/
theorem pyShr_eq_floor (y : Int) (n : Nat) : pyShr y n = ⌊(y : ℚ) / 2 ^ n⌋ := by
  have h2 : ((2 : Int) ^ n) ≠ 0 := by positivity
  rw [pyShr, fdiv_eq_floor y h2]
  congr 1
  push_cast
  rfl

/-- The saturation clamp never returns a negative value. -/
theorem clamp_nonneg (v : Int) : 0 ≤ clamp v := le_max_left 0 _

/-- The saturation clamp never exceeds 419430400. -/
theorem clamp_le (v : Int) : clamp v ≤ 419430400 :=
  max_le (by norm_num) (min_le_right _ _)

/-! ### Claim theorems -/

/-- C1: for every calibration set and ADC value, the computed temperature
equals ((t_fine * 5 + 128) >> 8) / 100 with t_fine = var1 + var2,
var1 = ((adc_T >> 3) - (T1 << 1)) * T2 >> 11 and, in the exact order,
x = (adc_T >> 4) - T1, var2 = ((x * x) >> 12) * T3 >> 14; moreover the
right shifts used are arithmetic, sign-preserving floor shifts. -/
theorem temperature_matches_formula (c : CalibrationSet) (adc_T : Int) :
    (temperature c adc_T =
      (let var1 := pyShr ((pyShr adc_T 3 - pyShl c.dig_T1 1) * c.dig_T2) 11
       let x := pyShr adc_T 4 - c.dig_T1
       let var2 := pyShr (pyShr (x * x) 12 * c.dig_T3) 14
       ((pyShr ((var1 + var2) * 5 + 128) 8 : ℤ) : ℚ) / 100)) ∧
    ∀ (y : ℤ) (n : ℕ), pyShr y n = ⌊(y : ℚ) / 2 ^ n⌋ :=
  ⟨rfl, pyShr_eq_floor⟩

/-- C4: for every calibration set and ADC pair, the humidity intermediate
is saturated into [0, 419430400] by the clamp (values below 0 become 0,
values above 419430400 become 419430400), and consequently the computed
humidity lies within [0, 102400/1024] = [0, 100] inclusive. -/
theorem humidity_in_range (c : CalibrationSet) (adc_T adc_H : Int) :
    (∀ v : ℤ, (v < 0 → clamp v = 0) ∧ (419430400 < v → clamp v = 419430400) ∧
      (0 ≤ v → v ≤ 419430400 → clamp v = v)) ∧
    (0 ≤ humidityV c adc_T adc_H ∧ humidityV c adc_T adc_H ≤ 419430400) ∧
    (0 ≤ humidity c adc_T adc_H ∧
      humidity c adc_T adc_H ≤ (102400 : ℚ) / 1024 ∧ (102400 : ℚ) / 1024 = 100) := by
  have hclamp : ∀ v : ℤ, (v < 0 → clamp v = 0) ∧ (419430400 < v → clamp v = 419430400) ∧
      (0 ≤ v → v ≤ 419430400 → clamp v = v) := by
    intro v
    unfold clamp
    refine ⟨fun h => ?_, fun h => ?_, fun h1 h2 => ?_⟩ <;> omega
  have hlo : 0 ≤ humidityV c adc_T adc_H := by
    unfold humidityV
    exact clamp_nonneg _
  have hhi : humidityV c adc_T adc_H ≤ 419430400 := by
    unfold humidityV
    exact clamp_le _
  set V := humidityV c adc_T adc_H with hV
  have hq : pyShr V 12 = V / 4096 := Int.fdiv_eq_ediv _ (by norm_num)
  have hq0 : 0 ≤ V / 4096 := Int.ediv_nonneg hlo (by norm_num)
  have hq1 : V / 4096 ≤ 102400 := by
    have h := Int.ediv_le_ediv (c := 4096) (by norm_num) hhi
    simpa using h
  refine ⟨hclamp, ⟨hlo, hhi⟩, ?_, ?_, by norm_num⟩
  · unfold humidity
    rw [← hV, hq]
    positivity
  · unfold humidity
    rw [← hV, hq]
    gcongr
    exact_mod_cast hq1

/-! ### Scanner step lemmas -/

/-- One step of the scanner with at least nine bytes in view. -/
theorem scan_nine (b0 b1 b2 b3 b4 b5 b6 b7 b8 : Nat) (rest : List Nat) :
    scan (b0 :: b1 :: b2 :: b3 :: b4 :: b5 :: b6 :: b7 :: b8 :: rest) =
      if b0 = 0xFF then (adc20 b1 b2 b3, adc20 b4 b5 b6, adc16 b7 b8) :: scan rest
      else scan (b1 :: b2 :: b3 :: b4 :: b5 :: b6 :: b7 :: b8 :: rest) := by
  rw [scan]

/-- The scanner stops as soon as fewer than nine bytes remain. -/
theorem scan_short {l : List Nat} (h : l.length < 9) : scan l = [] := by
  rw [scan.eq_def]
  rcases l with _ | ⟨a0, _ | ⟨a1, _ | ⟨a2, _ | ⟨a3, _ | ⟨a4, _ | ⟨a5, _ | ⟨a6, _ |
    ⟨a7, _ | ⟨a8, t⟩⟩⟩⟩⟩⟩⟩⟩⟩ <;> simp_all <;> omega

/-- A leading byte that is not the frame sentinel is skipped. -/
theorem scan_cons_ne {b : Nat} (hb : b ≠ 0xFF) (l : List Nat) :
    scan (b :: l) = scan l := by
  rcases l with _ | ⟨a1, _ | ⟨a2, _ | ⟨a3, _ | ⟨a4, _ | ⟨a5, _ | ⟨a6, _ |
    ⟨a7, _ | ⟨a8, t⟩⟩⟩⟩⟩⟩⟩⟩
  · rw [scan_short (by simp), scan_short (by simp)]
  · rw [scan_short (by simp), scan_short (by simp)]
  · rw [scan_short (by simp), scan_short (by simp)]
  · rw [scan_short (by simp), scan_short (by simp)]
  · rw [scan_short (by simp), scan_short (by simp)]
  · rw [scan_short (by simp), scan_short (by simp)]
  · rw [scan_short (by simp), scan_short (by simp)]
  · rw [scan_short (by simp), scan_short (by simp)]
  · rw [scan_nine, if_neg hb]

/-- One step of the fused driving loop with at least nine bytes in view. -/
theorem scanLoop_nine (c : CalibrationSet) (b0 b1 b2 b3 b4 b5 b6 b7 b8 : Nat)
    (rest : List Nat) :
    scanLoop c (b0 :: b1 :: b2 :: b3 :: b4 :: b5 :: b6 :: b7 :: b8 :: rest) =
      if b0 = 0xFF then
        (temperature c (adc20 b1 b2 b3 : Nat) :: (scanLoop c rest).1,
         pressure c (adc20 b1 b2 b3 : Nat) (adc20 b4 b5 b6 : Nat) :: (scanLoop c rest).2.1,
         humidity c (adc20 b1 b2 b3 : Nat) (adc16 b7 b8 : Nat) :: (scanLoop c rest).2.2)
      else scanLoop c (b1 :: b2 :: b3 :: b4 :: b5 :: b6 :: b7 :: b8 :: rest) := by
  rw [scanLoop]

/-- The fused driving loop stops as soon as fewer than nine bytes remain. -/
theorem scanLoop_short (c : CalibrationSet) {l : List Nat} (h : l.length < 9) :
    scanLoop c l = ([], [], []) := by
  rw [scanLoop.eq_def]
  rcases l with _ | ⟨a0, _ | ⟨a1, _ | ⟨a2, _ | ⟨a3, _ | ⟨a4, _ | ⟨a5, _ | ⟨a6, _ |
    ⟨a7, _ | ⟨a8, t⟩⟩⟩⟩⟩⟩⟩⟩⟩ <;> simp_all <;> omega

/-- Payload of a frame: the eight bytes following the 0xFF sentinel. -/
def Payload : Type := Nat × Nat × Nat × Nat × Nat × Nat × Nat × Nat

/-- A complete 9-byte frame: the sentinel 0xFF followed by a payload. -/
def mkFrame (f : Payload) : List Nat :=
  [0xFF, f.1, f.2.1, f.2.2.1, f.2.2.2.1, f.2.2.2.2.1, f.2.2.2.2.2.1,
   f.2.2.2.2.2.2.1, f.2.2.2.2.2.2.2]

/-- C10: frame detection validates only the sentinel byte: whenever the
byte at the cursor is 0xFF and at least 8 bytes follow, the scanner
extracts the ADC triplet of those 8 payload bytes regardless of their
content and resumes only after them, so a spurious 0xFF consumes the
next 8 bytes even when they belong to a genuine frame. -/
theorem sentinel_only_validation (b1 b2 b3 b4 b5 b6 b7 b8 : Nat) (rest : List Nat) :
    scan (0xFF :: b1 :: b2 :: b3 :: b4 :: b5 :: b6 :: b7 :: b8 :: rest) =
      (adc20 b1 b2 b3, adc20 b4 b5 b6, adc16 b7 b8) :: scan rest := by
  rw [scan_nine, if_pos rfl]

/-- C7: a buffer of N-1 complete sentinel-led frames followed by a
truncated trailing fragment (its 0xFF sentinel followed by fewer than
8 bytes) yields exactly N-1 ADC triplets; the truncated fragment is
silently discarded and no error occurs, the scan merely ends. -/
theorem truncated_tail_dropped (fs : List Payload) (frag : List Nat)
    (hsen : frag.head? = some 0xFF) (h2 : frag.length ≤ 8) :
    (scan ((fs.map mkFrame).flatten ++ frag)).length = fs.length := by
  induction fs with
  | nil =>
    simp only [List.map_nil, List.flatten_nil, List.nil_append]
    rw [scan_short (by omega)]
    rfl
  | cons f t ih =>
    simp only [List.map_cons, List.flatten_cons, mkFrame, List.cons_append,
      List.append_assoc]
    rw [scan_nine, if_pos rfl]
    simpa using ih

/-- C8: spurious non-0xFF bytes in front of the remaining buffer are
skipped one position at a time and change nothing: after all of them the
scanner resynchronizes and extracts the following frames unchanged, so
no subsequent valid frame is dropped. -/
theorem scan_resync (noise rest : List Nat) (h : ∀ b ∈ noise, b ≠ 0xFF) :
    scan (noise ++ rest) = scan rest := by
  induction noise with
  | nil => rfl
  | cons n t ih =>
    have hn : n ≠ 0xFF := h n (by simp)
    have ht : ∀ b ∈ t, b ≠ 0xFF := fun b hb => h b (by simp [hb])
    rw [List.cons_append, scan_cons_ne hn, ih ht]

/-- C9: the fused driving loop of the script appends exactly one
temperature, one pressure and one humidity per decoded frame, in the
order the frames occur in the buffer, and discards nothing: its three
lists are precisely the per-frame compensation maps over the decoded
ADC triplets. -/
theorem series_is_map_of_frames (c : CalibrationSet) (l : List Nat) :
    scanLoop c l =
      ((scan l).map (fun a => temperature c (a.1 : Nat)),
       (scan l).map (fun a => pressure c (a.1 : Nat) (a.2.1 : Nat)),
       (scan l).map (fun a => humidity c (a.1 : Nat) (a.2.2 : Nat))) := by
  induction l using scan.induct with
  | case1 b1 b2 b3 b4 b5 b6 b7 b8 rest ih =>
    rw [scan_nine, scanLoop_nine, if_pos rfl, if_pos rfl, ih]
    simp
  | case2 b0 b1 b2 b3 b4 b5 b6 b7 b8 rest hb ih =>
    rw [scan_nine, scanLoop_nine, if_neg hb, if_neg hb, ih]
  | case3 l h =>
    have hlen : l.length < 9 := by
      by_contra hlen
      push_neg at hlen
      rcases l with _ | ⟨a0, _ | ⟨a1, _ | ⟨a2, _ | ⟨a3, _ | ⟨a4, _ | ⟨a5, _ | ⟨a6, _ |
        ⟨a7, _ | ⟨a8, t⟩⟩⟩⟩⟩⟩⟩⟩⟩ <;>
        first
          | exact h _ _ _ _ _ _ _ _ _ _ rfl
          | simp at hlen
    rw [scan_short hlen, scanLoop_short c hlen]
    rfl

/-- C5: when the divisor intermediate var1 of the pressure path is zero,
the pressure result is the defined sentinel value 0 and no error is
raised: the frame still contributes its temperature and humidity to the
series, and the loop continues with the rest of the buffer. -/
theorem pressure_zero_is_sentinel (c : CalibrationSet) (b1 b2 b3 b4 b5 b6 b7 b8 : Nat)
    (rest : List Nat) (h : pVar1 c (adc20 b1 b2 b3 : Nat) = 0) :
    pressure c (adc20 b1 b2 b3 : Nat) (adc20 b4 b5 b6 : Nat) = 0 ∧
    scanLoop c (0xFF :: b1 :: b2 :: b3 :: b4 :: b5 :: b6 :: b7 :: b8 :: rest) =
      (temperature c (adc20 b1 b2 b3 : Nat) :: (scanLoop c rest).1,
       0 :: (scanLoop c rest).2.1,
       humidity c (adc20 b1 b2 b3 : Nat) (adc16 b7 b8 : Nat) :: (scanLoop c rest).2.2) := by
  have hp : pressure c (adc20 b1 b2 b3 : Nat) (adc20 b4 b5 b6 : Nat) = 0 := by
    unfold pressure
    rw [if_neg (not_ne_iff.mpr h)]
  refine ⟨hp, ?_⟩
  rw [scanLoop_nine, if_pos rfl, hp]

/-- C3: the single integer division of the pressure path divides
((p << 31) - var2) * 3125 by var1 with flooring semantics: whenever the
divisor is nonzero, the quotient is the floor of the exact rational
quotient, for any signs of dividend and divisor. -/
theorem pressure_division_is_floor (c : CalibrationSet) (adc_T adc_P : Int)
    (h : pVar1 c adc_T ≠ 0) :
    Int.fdiv ((pyShl (1048576 - adc_P) 31 - pVar2 c adc_T) * 3125) (pVar1 c adc_T) =
      ⌊(((pyShl (1048576 - adc_P) 31 - pVar2 c adc_T) * 3125 : ℤ) : ℚ) /
        ((pVar1 c adc_T : ℤ) : ℚ)⌋ :=
  fdiv_eq_floor _ h

/-- Calibration set with every coefficient zero, as parsed from a buffer
of a 0xFE sentinel followed by 32 zero bytes. -/
def cZero : CalibrationSet :=
  { dig_T1 := 0, dig_T2 := 0, dig_T3 := 0, dig_P1 := 0, dig_P2 := 0, dig_P3 := 0,
    dig_P4 := 0, dig_P5 := 0, dig_P6 := 0, dig_P7 := 0, dig_P8 := 0, dig_P9 := 0,
    dig_H1 := 0, dig_H2 := 0, dig_H3 := 0, dig_H4 := 0, dig_H5 := 0, dig_H6 := 0 }

/-- Calibration set with P1 = 1 and every other coefficient zero. -/
def cP1 : CalibrationSet := { cZero with dig_P1 := 1 }

/-- Witness for C5 at the all-zero calibration set, whose P1 = 0 forces
the divisor intermediate to zero. -/
theorem pressure_zero_is_sentinel_witness :
    pVar1 cZero (adc20 0 0 0 : Nat) = 0 ∧
    (pressure cZero (adc20 0 0 0 : Nat) (adc20 0 0 0 : Nat) = 0 ∧
     scanLoop cZero (0xFF :: 0 :: 0 :: 0 :: 0 :: 0 :: 0 :: 0 :: 0 :: []) =
       (temperature cZero (adc20 0 0 0 : Nat) :: (scanLoop cZero []).1,
        0 :: (scanLoop cZero []).2.1,
        humidity cZero (adc20 0 0 0 : Nat) (adc16 0 0 : Nat) :: (scanLoop cZero []).2.2)) :=
  ⟨by decide, pressure_zero_is_sentinel cZero 0 0 0 0 0 0 0 0 [] (by decide)⟩

/-- Witness for C3 at the calibration set with P1 = 1, whose divisor
intermediate is 2 ^ 14 and hence nonzero. -/
theorem pressure_division_is_floor_witness :
    pVar1 cP1 0 ≠ 0 ∧
    Int.fdiv ((pyShl (1048576 - 0) 31 - pVar2 cP1 0) * 3125) (pVar1 cP1 0) =
      ⌊(((pyShl (1048576 - 0) 31 - pVar2 cP1 0) * 3125 : ℤ) : ℚ) /
        ((pVar1 cP1 0 : ℤ) : ℚ)⌋ :=
  ⟨by decide, pressure_division_is_floor cP1 0 0 (by decide)⟩

/-- Witness for C7: one complete frame followed by a bare trailing
sentinel yields exactly one measurement. -/
theorem truncated_tail_dropped_witness :
    ([0xFF] : List Nat).head? = some 0xFF ∧ ([0xFF] : List Nat).length ≤ 8 ∧
    (scan (([((1, 2, 3, 4, 5, 6, 7, 8) : Payload)].map mkFrame).flatten
      ++ [0xFF])).length = 1 :=
  ⟨rfl, by decide,
    truncated_tail_dropped [((1, 2, 3, 4, 5, 6, 7, 8) : Payload)] [0xFF] rfl (by decide)⟩

/-- Witness for C8: one zero noise byte in front of a complete frame
changes nothing. -/
theorem scan_resync_witness :
    (∀ b ∈ ([0] : List Nat), b ≠ 0xFF) ∧
    scan (([0] : List Nat) ++ (0xFF :: [1, 2, 3, 4, 5, 6, 7, 8])) =
      scan (0xFF :: [1, 2, 3, 4, 5, 6, 7, 8]) :=
  ⟨by decide, scan_resync [0] _ (by decide)⟩

/-- Calibration buffer whose packed H4 bit pattern has bit 11 set:
calib[28] = 0x80 and calib[29] = calib[30] = calib[31] = 0, so the
pattern (calib[28] << 4) | (calib[29] & 0x0F) equals 0x800 = 2048. -/
def h4BitBuf : List Nat := 0xFE :: (List.replicate 28 0 ++ [0x80, 0, 0, 0])

/-- C2 (code bug evidence): on a calibration block whose H4 pattern has
bit 11 set, the script parses dig_H4 to the non-negative value 2048: it
applies no twos complement reinterpretation to dig_H4 (nor to dig_H5),
so a packed pattern with bit 11 set never parses to a negative value,
whereas the signed 12-bit reading required by the specification and the
sensor datasheet would give 2048 - 4096 = -2048. -/
theorem h4_bit11_parses_positive :
    (parse h4BitBuf).toOption.map CalibrationSet.dig_H4 = some 2048 ∧
    (parse h4BitBuf).toOption.map CalibrationSet.dig_H5 = some 0 ∧
    0 < (2048 : ℤ) ∧ (2048 : ℤ) - 4096 = -2048 := by
  refine ⟨by decide, by decide, by decide, by decide⟩

/-- C6 (counterexample): the buffer consisting of the single byte 0xFE is
shorter than the 33-byte minimum, yet parsing it does not fail with the
MalformedInput error; it fails with IndexError, because the script
checks the sentinel byte but never checks the buffer length. -/
theorem short_buffer_not_malformed :
    ([0xFE] : List Nat).length < 33 ∧
    parse [0xFE] = Except.error PyError.indexError ∧
    parse [0xFE] ≠ Except.error PyError.malformedInput := by
  refine ⟨by decide, rfl, ?_⟩
  intro hcontra
  rw [show parse [0xFE] = Except.error PyError.indexError from rfl] at hcontra
  exact absurd (Except.error.inj hcontra) (by decide)

/-- C6 (amended): parsing fails with MalformedInput exactly when the
buffer is nonempty and its byte 0 differs from the sentinel 0xFE; an
empty buffer fails with IndexError, and a buffer with a correct
sentinel that is shorter than 33 bytes also fails with IndexError
rather than MalformedInput. -/
theorem malformed_iff_bad_sentinel (data : List Nat) :
    (parse data = Except.error PyError.malformedInput ↔
      ∃ b0 t, data = b0 :: t ∧ b0 ≠ 0xFE) ∧
    parse [] = Except.error PyError.indexError ∧
    (∀ b0 t, data = b0 :: t → b0 = 0xFE → data.length < 33 →
      parse data = Except.error PyError.indexError) := by
  refine ⟨?_, rfl, ?_⟩
  · cases data with
    | nil => simp [parse]
    | cons b0 t =>
      by_cases hb : b0 = 0xFE
      · subst hb
        simp only [parse, if_neg (by simp : ¬((0xFE : Nat) ≠ 0xFE))]
        constructor
        · intro hcontra
          split at hcontra <;> simp_all
        · rintro ⟨b1, t1, heq, hne⟩
          rw [List.cons.injEq] at heq
          exact absurd heq.1.symm hne
      · simp only [parse, if_pos hb]
        simp [hb]
  · rintro b0 t rfl hb hlen
    subst hb
    simp only [parse, if_neg (by simp : ¬((0xFE : Nat) ≠ 0xFE))]
    rw [if_pos]
    simp only [List.length_cons] at hlen
    simp only [List.drop_succ_cons, List.drop_zero, List.length_take]
    omega

/-- Witness for the amended C6 statement: a 2-byte buffer with a correct
sentinel fails with IndexError, not MalformedInput. -/
theorem malformed_iff_bad_sentinel_witness :
    ([0xFE, 0] : List Nat).length < 33 ∧
    parse [0xFE, 0] = Except.error PyError.indexError :=
  ⟨by decide, (malformed_iff_bad_sentinel [0xFE, 0]).2.2 0xFE [0] rfl rfl (by decide)⟩
